import Mathlib

/-
Shallow embedding of src/frontend/public/examples/hello.cpp.

The program is a straight-line batch program:
  int main() {
    std::cout << "Hello, C++ World!" << std::endl;
    std::vector<int> numbers = {1, 2, 3, 4, 5};
    int sum = 0;
    for (int num : numbers) { sum += num; }
    std::cout << "Sum of numbers: " << sum << std::endl;
    std::string message = "C++ is powerful";
    std::cout << "Message: " << message << std::endl;
    std::cout << "Length: " << message.length() << std::endl;
    return 0;
  }

Each statement is embedded as a transformer on an explicit program state.
Local variables that are not yet declared are `none`; machine ints are
modelled as Int (all values here are tiny, far from any width bound, and
claim C7 covers representability explicitly).
-/

namespace Hello

/-- The line terminator appended by std::endl. -/
def lineTerm : String := "\n"

/-- The literal initializer list of the vector `numbers` (line 10). -/
def numbers : List Int := [1, 2, 3, 4, 5]

/-- The string literal bound to `message` (line 21). -/
def message : String := "C++ is powerful"

/-- Execution state of main: the three locals (none before declaration),
the lines written to standard output so far, and the returned value. -/
structure CppState where
  numbers : Option (List Int)
  sum : Option Int
  message : Option String
  out : List String
  ret : Option Int
deriving DecidableEq, Repr

/-- State at entry to main: no local declared, nothing written. -/
def initState : CppState :=
  { numbers := none, sum := none, message := none, out := [], ret := none }

/-- Line 7: std::cout << "Hello, C++ World!" << std::endl. -/
def stmtHello (s : CppState) : CppState :=
  { s with out := s.out ++ ["Hello, C++ World!"] }

/-- Line 10: std::vector<int> numbers = \x7b1, 2, 3, 4, 5\x7d. -/
def stmtNumbers (s : CppState) : CppState :=
  { s with numbers := some [1, 2, 3, 4, 5] }

/-- Line 13: int sum = 0. -/
def stmtSumInit (s : CppState) : CppState :=
  { s with sum := some 0 }

/-- Line 15, one iteration of the range-for body: sum += num. -/
def stmtLoopIter (num : Int) (s : CppState) : CppState :=
  { s with sum := s.sum.map (fun acc => acc + num) }

/-- Lines 14-16: for (int num : numbers) \x7b sum += num; \x7d, a forward
traversal of the vector held in the state. -/
def stmtLoop (s : CppState) : CppState :=
  List.foldl (fun t n => stmtLoopIter n t) s (s.numbers.getD [])

/-- Line 18: std::cout << "Sum of numbers: " << sum << std::endl. -/
def stmtPrintSum (s : CppState) : CppState :=
  { s with out := s.out ++ ["Sum of numbers: " ++ toString (s.sum.getD 0)] }

/-- Line 21: std::string message = "C++ is powerful". -/
def stmtMessage (s : CppState) : CppState :=
  { s with message := some "C++ is powerful" }

/-- Line 22: std::cout << "Message: " << message << std::endl. -/
def stmtPrintMessage (s : CppState) : CppState :=
  { s with out := s.out ++ ["Message: " ++ (s.message.getD "")] }

/-- Line 23: std::cout << "Length: " << message.length() << std::endl. -/
def stmtPrintLength (s : CppState) : CppState :=
  { s with out := s.out ++ ["Length: " ++ toString (s.message.getD "").length] }

/-- Line 25: return 0. -/
def stmtReturn (s : CppState) : CppState :=
  { s with ret := some 0 }

/-- The state just before the summation loop (after lines 7, 10, 13). -/
def stateBeforeLoop : CppState :=
  stmtSumInit (stmtNumbers (stmtHello initState))

/-- The state at the end of main, after all nine statements. -/
def finalState : CppState :=
  stmtReturn (stmtPrintLength (stmtPrintMessage (stmtMessage
    (stmtPrintSum (stmtLoop stateBeforeLoop)))))

/-- Host environment a run could be given: command-line arguments and
the contents of standard input (none when the stream is closed). -/
structure Env where
  args : List String
  stdinData : Option String
deriving DecidableEq, Repr

/-- Embedding of main. The source declares main with no parameters and
never reads arguments, standard input or the environment, so the host
environment is taken explicitly and left unused. The result is the list
of emitted lines paired with the exit status. -/
def main (_env : Env) : List String × Int :=
  (finalState.out, finalState.ret.getD 0)

/-- Byte rendering of the emitted lines: each line followed by the line
terminator written by std::endl. -/
def render (lines : List String) : String :=
  String.join (lines.map (fun l => l ++ lineTerm))

/-- The states of the loop in order: the state after each of the five
iterations of the range-for, starting from a given pre-loop state. -/
def loopTrace (s : CppState) : List CppState :=
  (List.foldl (fun (p : CppState × List CppState) n =>
    let t := stmtLoopIter n p.1
    (t, p.2 ++ [t])) (s, []) (s.numbers.getD [])).2

/-- The full execution trace: the state before any statement, then the
state after each statement, with every loop iteration included. -/
def trace : List CppState :=
  [initState, stmtHello initState, stmtNumbers (stmtHello initState),
    stateBeforeLoop] ++
  loopTrace stateBeforeLoop ++
  [stmtPrintSum (stmtLoop stateBeforeLoop),
    stmtMessage (stmtPrintSum (stmtLoop stateBeforeLoop)),
    stmtPrintMessage (stmtMessage (stmtPrintSum (stmtLoop stateBeforeLoop))),
    stmtPrintLength (stmtPrintMessage (stmtMessage
      (stmtPrintSum (stmtLoop stateBeforeLoop)))),
    finalState]

/-- The value of the local `sum` at the end of the loop (line 16). -/
def sum : Int := (stmtLoop stateBeforeLoop).sum.getD 0

/-- The value of `sum` after the loop has processed the first k elements
of `numbers`, read off the embedded loop semantics. -/
def sumAfterK (k : Nat) : Option Int :=
  (List.foldl (fun t n => stmtLoopIter n t) stateBeforeLoop
    (numbers.take k)).sum

/-- Arithmetic sum of the first k elements of `numbers`, the spec-side
meaning of the partial sum. -/
def partialSumSpec (k : Nat) : Int := (numbers.take k).sum

end Hello

/-- C1: every execution emits exactly the four lines `Hello, C++ World!`,
`Sum of numbers: 15`, `Message: C++ is powerful`, `Length: 15`, in this
order, each ended by the line terminator, and nothing else. -/
theorem C1_output_exactly_four_lines (env : Hello.Env) :
    (Hello.main env).1 =
      ["Hello, C++ World!", "Sum of numbers: 15",
        "Message: C++ is powerful", "Length: 15"] ∧
    Hello.render (Hello.main env).1 =
      "Hello, C++ World!\nSum of numbers: 15\nMessage: C++ is powerful\nLength: 15\n" := by
  exact ⟨rfl, rfl⟩

/-- C2: the accumulator starts at 0, the sequence (1,2,3,4,5) is folded
in forward order, the result equals the arithmetic sum of the elements of
`numbers`, namely 15, and the printed line is `Sum of numbers: 15`. -/
theorem C2_sum_traversal_correct :
    Hello.stateBeforeLoop.sum = some 0 ∧
    Hello.sum = List.foldl (fun acc n => acc + n) 0 Hello.numbers ∧
    Hello.sum = Hello.numbers.sum ∧
    Hello.sum = 15 ∧
    (Hello.stmtPrintSum (Hello.stmtLoop Hello.stateBeforeLoop)).out.getLast? =
      some "Sum of numbers: 15" := by
  refine ⟨by decide, by decide, by decide, by decide, by decide⟩

/-- C3: the reported length of `message` equals the count of code units
in the literal `C++ is powerful`, namely 15, and the program emits
`Message: C++ is powerful` then `Length: 15`. -/
theorem C3_message_length_correct :
    Hello.message.length = 15 ∧
    Hello.message.utf8ByteSize = 15 ∧
    Hello.finalState.out.drop 2 =
      ["Message: C++ is powerful", "Length: 15"] := by
  exact ⟨by decide, by decide, by decide⟩

/-- C4: every execution that reaches the final statement returns exit
status 0 to the host, whatever the environment. -/
theorem C4_exit_success (env : Hello.Env) :
    (Hello.main env).2 = 0 ∧ Hello.finalState.ret = some 0 := by
  exact ⟨rfl, rfl⟩

/-- C5: the output and exit status do not depend on command-line
arguments or on standard input: any two runs, whatever their arguments
and whether stdin is provided or closed, give identical results. -/
theorem C5_env_independent (e1 e2 : Hello.Env) :
    Hello.main e1 = Hello.main e2 := rfl

/-- C6: the program is deterministic: the embedded output function is a
constant, so any two executions produce byte-identical standard output. -/
theorem C6_deterministic (e1 e2 : Hello.Env) :
    Hello.render (Hello.main e1).1 = Hello.render (Hello.main e2).1 ∧
    Hello.render (Hello.main e1).1 =
      "Hello, C++ World!\nSum of numbers: 15\nMessage: C++ is powerful\nLength: 15\n" := by
  exact ⟨rfl, rfl⟩

/-- C7: no overflow while summing: with exact integer arithmetic the
final value is 15, and every partial sum (hence 15 itself) is
representable in any signed integer of width at least 5 bits. -/
theorem C7_no_overflow (w k : Nat) (hw : 5 ≤ w) (hk : k ≤ Hello.numbers.length) :
    Hello.sum = 15 ∧
    0 ≤ Hello.partialSumSpec k ∧
    Hello.partialSumSpec k < 2 ^ (w - 1) ∧
    -(2 ^ (w - 1) : Int) ≤ Hello.partialSumSpec k := by
  have hbound : (2 : Int) ^ 4 ≤ 2 ^ (w - 1) := by
    apply pow_le_pow_right₀ (by norm_num)
    omega
  have hk15 : 0 ≤ Hello.partialSumSpec k ∧ Hello.partialSumSpec k ≤ 15 := by
    have h5 : k ≤ 5 := hk
    interval_cases k <;> exact ⟨by decide, by decide⟩
  refine ⟨by decide, hk15.1, ?_, ?_⟩
  · calc Hello.partialSumSpec k ≤ 15 := hk15.2
      _ < 2 ^ 4 := by norm_num
      _ ≤ 2 ^ (w - 1) := hbound
  · calc -(2 ^ (w - 1) : Int) ≤ -(2 ^ 4) := by omega
      _ ≤ 0 := by norm_num
      _ ≤ Hello.partialSumSpec k := hk15.1

/-- Witness for C7 at width 5 and the full traversal k = 5. -/
theorem C7_no_overflow_witness :
    5 ≤ 5 ∧ 5 ≤ Hello.numbers.length ∧
    (Hello.sum = 15 ∧
      0 ≤ Hello.partialSumSpec 5 ∧
      Hello.partialSumSpec 5 < 2 ^ (5 - 1) ∧
      -(2 ^ (5 - 1) : Int) ≤ Hello.partialSumSpec 5) :=
  ⟨by decide, by decide, C7_no_overflow 5 5 (by decide) (by decide)⟩

/-- C8: after initialization `numbers` stays equal to (1,2,3,4,5) for the
rest of the execution and `message` stays equal to "C++ is powerful";
during the loop only the accumulator field changes. -/
theorem C8_frame_numbers_message :
    (∀ s ∈ Hello.trace.drop 2, s.numbers = some [1, 2, 3, 4, 5]) ∧
    (∀ s ∈ Hello.trace.drop 10, s.message = some "C++ is powerful") ∧
    (∀ s ∈ Hello.loopTrace Hello.stateBeforeLoop,
      s.numbers = Hello.stateBeforeLoop.numbers ∧
      s.message = Hello.stateBeforeLoop.message ∧
      s.out = Hello.stateBeforeLoop.out ∧
      s.ret = Hello.stateBeforeLoop.ret) := by
  refine ⟨by decide, by decide, by decide⟩

/-- C9: the program always terminates: the embedded entry routine is a
total function whose single traversal visits exactly the five elements
of `numbers`, and execution reaches the final return. -/
theorem C9_terminates :
    Hello.finalState.ret = some 0 ∧
    (Hello.loopTrace Hello.stateBeforeLoop).length = Hello.numbers.length ∧
    Hello.numbers.length = 5 ∧
    Hello.trace.length = 14 := by
  exact ⟨by decide, by decide, by decide, by decide⟩

/-- C10: loop invariant of the summation: after processing the first k
elements the accumulator holds the sum of those first k elements; the
partial sums are strictly increasing across iterations and never
negative. -/
theorem C10_loop_invariant (k : Nat) (hk : k ≤ Hello.numbers.length) :
    Hello.sumAfterK k = some (Hello.partialSumSpec k) ∧
    0 ≤ Hello.partialSumSpec k ∧
    (k < Hello.numbers.length →
      Hello.partialSumSpec k < Hello.partialSumSpec (k + 1)) := by
  have h5 : k ≤ 5 := hk
  interval_cases k <;> exact ⟨by decide, by decide, by decide⟩

/-- Witness for C10 at k = 3. -/
theorem C10_loop_invariant_witness :
    3 ≤ Hello.numbers.length ∧
    (Hello.sumAfterK 3 = some (Hello.partialSumSpec 3) ∧
      0 ≤ Hello.partialSumSpec 3 ∧
      (3 < Hello.numbers.length →
        Hello.partialSumSpec 3 < Hello.partialSumSpec (3 + 1))) :=
  ⟨by decide, C10_loop_invariant 3 (by decide)⟩
